import Mathlib

/-!
Shallow embedding of the interrupt bottom-half engine of the wfx driver
(`bh.c`): the receive helper and pump, the transmit helper and pump, the
bottom-half worker, and the interrupt entry point.  Bus reads/writes,
allocation and crypto collaborators are abstracted as boolean success
inputs; machine integers are modelled as `Nat`/`Int`.
-/

set_option linter.unusedVariables false

namespace Wfx

/-- Modelled from the spec: the sequence field is a 3-bit counter (range
`[0, N]` wrapping modulo `N+1`); the constant lives in a header that is
not part of the sources (`wsm.h`). -/
def WMSG_COUNTER_MAX : Nat := 7

/-- Modelled from the spec: low bits of the control word encode the next
pending length in 16-bit units (header `hwio.h` is not in the sources). -/
def CTRL_NEXT_LEN_MASK : Nat := 0xFFF

/-- Modelled from the spec: a separate bit of the piggyback word asserts
the chip is awake and ready (header `hwio.h` is not in the sources). -/
def CTRL_WLAN_READY : Nat := 0x2000

/-- Modelled from the spec: message-id bit marking indications vs
confirmations (header `wsm.h` is not in the sources). -/
def WMSG_ID_IS_INDICATION : Nat := 0x80

/-- Modelled from the spec: id of the exception indication, one of the two
privileged ids carrying no sequence obligation. -/
def HI_EXCEPTION_IND_ID : Nat := 0xe0

/-- Modelled from the spec: id of the error indication, the other
privileged id carrying no sequence obligation. -/
def HI_ERROR_IND_ID : Nat := 0xe4

/-- Modelled from the spec: id of the multi-transmit confirmation, whose
body carries a batch release count. -/
def WSM_HI_MULTI_TRANSMIT_CNF_ID : Nat := 0x1e

/-- Modelled from the spec: size of the secure-link header `struct
sl_wmsg` (fixed encryption-envelope overhead; header not in sources). -/
def SL_WMSG_SIZE : Nat := 4

/-- Modelled from the spec: size of the secure-link tag `struct sl_tag`
(fixed encryption-envelope overhead; header not in sources). -/
def SL_TAG_SIZE : Nat := 16

/-- Kernel `round_up` for positive alignment. -/
def roundUp (x n : Nat) : Nat :=
  ((x + n - 1) / n) * n

/-- The mutable per-link state of `wdev->hif` used by `bh.c`:
the credit counter, both sequence counters, the atomic control-register
snapshot and the `ctrl_ready` completion. -/
structure Hif where
  tx_buffers_used : Int
  tx_seqnum : Nat
  rx_seqnum : Nat
  ctrl_reg : Nat
  ctrl_ready : Bool
deriving Repr, DecidableEq

/-- Generic message envelope header (`struct wmsg`), with the
`NumTxConfs` field of the multi-transmit-confirmation body attached so a
single record describes any received message. -/
structure Wmsg where
  encrypted : Nat
  len : Nat
  seqnum : Nat
  id : Nat
  numTxConfs : Nat
deriving Repr, DecidableEq

/-- What the bus delivers for one `rx_helper` call: allocation and read
outcomes, the trailing piggyback word, the parsed header, and the
secure-link decode outcome. -/
structure RxInput where
  alloc_ok : Bool
  read_ok : Bool
  piggyback : Nat
  wsm : Wmsg
  sl_decode_ok : Bool
deriving Repr, DecidableEq

/-- Result of one `rx_helper` call: the C return value (piggyback word or
negative errno), the updated state, the updated confirmation counter, and
flags recording each log/warn/dispatch side effect. -/
structure RxOut where
  ret : Int
  hif : Hif
  num_cnf : Nat
  warned_short : Bool
  warned_encryption : Bool
  logged_len_mismatch : Bool
  warned_seq : Bool
  warned_underflow : Bool
  woke_empty : Bool
  dispatched : Bool
deriving Repr, DecidableEq

/-- Error exit of `rx_helper` (the `err:` label / early `-ENOMEM`
return): state and confirmation counter are left untouched. -/
def rxErr (hif : Hif) (numCnf : Nat) (code : Int)
    (ws we lm : Bool) : RxOut :=
  { ret := code, hif := hif, num_cnf := numCnf,
    warned_short := ws, warned_encryption := we,
    logged_len_mismatch := lm, warned_seq := false,
    warned_underflow := false, woke_empty := false, dispatched := false }

/-- On-wire length recomputed by `rx_helper` from the (decrypted) header:
encrypted messages round the body to the cipher block and add the
secure-link envelope overhead; cleartext messages round to 2 bytes. -/
def computed_len (w : Wmsg) : Nat :=
  if w.encrypted = 2 then
    roundUp (w.len - 2) 16 + SL_WMSG_SIZE + SL_TAG_SIZE
  else
    roundUp w.len 2

/-- Credit release count extracted from a confirmation: the
`NumTxConfs` field for a multi-transmit confirmation, else 1. -/
def release_count (w : Wmsg) : Int :=
  if w.id = WSM_HI_MULTI_TRANSMIT_CNF_ID then (w.numTxConfs : Int) else 1

/-- Embedding of `rx_helper` (`bh.c:50`): read one announced message,
extract the piggyback word, optionally decrypt, check the computed length
against the announced one, validate the sequence number, and release
credits for confirmation-class messages. -/
def rx_helper (hif : Hif) (inp : RxInput) (read_len : Nat)
    (numCnf : Nat) : RxOut :=
  let ws := decide (read_len < 4)
  if inp.alloc_ok = false then
    rxErr hif numCnf (-12) ws false false
  else if inp.read_ok = false then
    rxErr hif numCnf (-5) ws false false
  else
    let w := inp.wsm
    let we := decide (w.encrypted &&& 1 ≠ 0)
    if w.encrypted = 2 ∧ inp.sl_decode_ok = false then
      rxErr hif numCnf (-5) ws we false
    else if computed_len w ≠ read_len then
      rxErr hif numCnf (-5) ws we true
    else
      let exempt := w.id = HI_EXCEPTION_IND_ID ∨ w.id = HI_ERROR_IND_ID
      let warnedSeq := decide (¬exempt ∧ w.seqnum ≠ hif.rx_seqnum)
      let hif1 :=
        if exempt then hif
        else { hif with rx_seqnum := (w.seqnum + 1) % (WMSG_COUNTER_MAX + 1) }
      if w.id &&& WMSG_ID_IS_INDICATION = 0 then
        let rc := release_count w
        let warnedU := decide (hif1.tx_buffers_used < rc)
        let hif2 := { hif1 with tx_buffers_used := hif1.tx_buffers_used - rc }
        { ret := (inp.piggyback : Int), hif := hif2, num_cnf := numCnf + 1,
          warned_short := ws, warned_encryption := we,
          logged_len_mismatch := false, warned_seq := warnedSeq,
          warned_underflow := warnedU,
          woke_empty := decide (hif2.tx_buffers_used = 0), dispatched := true }
      else
        { ret := (inp.piggyback : Int), hif := hif1, num_cnf := numCnf,
          warned_short := ws, warned_encryption := we,
          logged_len_mismatch := false, warned_seq := warnedSeq,
          warned_underflow := false, woke_empty := false, dispatched := true }

/-- Result of `bh_work_rx`: iteration count, final state and confirmation
counter, the value of the loop's `piggyback` variable at the moment the
loop stopped, and the outcome of the end-of-loop re-latch step. -/
structure BhRxOut where
  count : Nat
  hif : Hif
  num_cnf : Nat
  stop_piggyback : Int
  relatched : Bool
  relatch_prev : Nat
  logged_unexpected_irq : Bool
deriving Repr, DecidableEq

/-- Work-source selection at the top of each `bh_work_rx` iteration
(`bh.c:137`): a pending piggyback length wins; otherwise consume the
`ctrl_ready` completion and atomically exchange the snapshot with 0;
otherwise no work.  Returns the control word and the updated state. -/
def eff_ctrl (hif : Hif) (piggyback : Nat) : Nat × Hif :=
  if piggyback &&& CTRL_NEXT_LEN_MASK ≠ 0 then
    (piggyback, hif)
  else if hif.ctrl_ready then
    (hif.ctrl_reg, { hif with ctrl_ready := false, ctrl_reg := 0 })
  else
    (0, hif)

/-- Early exit of `bh_work_rx` (`return i` at `bh.c:144` and `bh.c:149`):
no re-latch is performed. -/
def bhRxStop (idx : Nat) (hif : Hif) (numCnf : Nat)
    (stopPiggy : Int) : BhRxOut :=
  { count := idx, hif := hif, num_cnf := numCnf,
    stop_piggyback := stopPiggy, relatched := false,
    relatch_prev := 0, logged_unexpected_irq := false }

/-- The loop of `bh_work_rx` (`bh.c:136`), with `fuel` the remaining
iteration budget (`max_msg - i`) and `inputs` the per-iteration bus
contents.  On fuel exhaustion the end-of-loop step (`bh.c:153`) re-latches
a still-pending piggyback length into the snapshot and re-arms the
completion, logging if the exchanged-out snapshot was non-zero. -/
def bh_work_rx_go (inputs : Nat → RxInput) (hif : Hif) (numCnf : Nat)
    (piggyback : Nat) (idx : Nat) : Nat → BhRxOut
  | 0 =>
    if piggyback &&& CTRL_NEXT_LEN_MASK ≠ 0 then
      { count := idx,
        hif := { hif with ctrl_reg := piggyback, ctrl_ready := true },
        num_cnf := numCnf, stop_piggyback := (piggyback : Int),
        relatched := true, relatch_prev := hif.ctrl_reg,
        logged_unexpected_irq := decide (hif.ctrl_reg ≠ 0) }
    else
      bhRxStop idx hif numCnf (piggyback : Int)
  | fuel + 1 =>
    let p := eff_ctrl hif piggyback
    if p.1 &&& CTRL_NEXT_LEN_MASK = 0 then
      bhRxStop idx p.2 numCnf (piggyback : Int)
    else
      let len := (p.1 &&& CTRL_NEXT_LEN_MASK) * 2
      let o := rx_helper p.2 (inputs idx) len numCnf
      if o.ret < 0 then
        bhRxStop idx o.hif o.num_cnf o.ret
      else
        bh_work_rx_go inputs o.hif o.num_cnf o.ret.toNat (idx + 1) fuel

/-- Embedding of `bh_work_rx` (`bh.c:129`): drain up to `maxMsg` pending
messages, starting with no piggyback hint. -/
def bh_work_rx (inputs : Nat → RxInput) (maxMsg : Nat) (hif : Hif)
    (numCnf : Nat) : BhRxOut :=
  bh_work_rx_go inputs hif numCnf 0 0 maxMsg

/-- Outcomes of the external collaborators used by one `tx_helper` call:
whether the id requires link security, and the allocation, encode and bus
write results. -/
structure TxEnv where
  is_secure : Bool
  kmalloc_ok : Bool
  sl_encode_ok : Bool
  write_ok : Bool
deriving Repr, DecidableEq

/-- Result of one `tx_helper` call: updated state, the sequence number
stamped into the outgoing header, whether the bus write succeeded, how
many bus writes were attempted, and whether a `BUG_ON` fired. -/
structure TxOut where
  hif : Hif
  stamped : Nat
  wrote : Bool
  write_attempts : Nat
  bug : Bool
deriving Repr, DecidableEq

/-- Embedding of `tx_helper` (`bh.c:162`): stamp and advance the transmit
sequence number, optionally encode through the secure link, write to the
bus, and count the buffer as used only after a successful write. -/
def tx_helper (hif : Hif) (w : Wmsg) (len : Nat) (env : TxEnv) : TxOut :=
  let bug := decide (len < 4 ∨ w.len ≠ len)
  let stamped := hif.tx_seqnum
  let hif1 := { hif with tx_seqnum := (hif.tx_seqnum + 1) % (WMSG_COUNTER_MAX + 1) }
  if env.is_secure ∧ (env.kmalloc_ok = false ∨ env.sl_encode_ok = false) then
    { hif := hif1, stamped := stamped, wrote := false,
      write_attempts := 0, bug := bug }
  else if env.write_ok = false then
    { hif := hif1, stamped := stamped, wrote := false,
      write_attempts := 1, bug := bug }
  else
    { hif := { hif1 with tx_buffers_used := hif1.tx_buffers_used + 1 },
      stamped := stamped, wrote := true, write_attempts := 1, bug := bug }

/-- One queued outbound message: header, length, and the collaborator
outcomes for its transmission. -/
abbrev TxItem : Type := Wmsg × Nat × TxEnv

/-- Run a list of transmit attempts through `tx_helper`, collecting the
final state and the sequence numbers of the messages actually written to
the bus, in wire order. -/
def tx_run (hif : Hif) : List TxItem → Hif × List Nat
  | [] => (hif, [])
  | (w, len, env) :: rest =>
    let o := tx_helper hif w len env
    let r := tx_run o.hif rest
    (r.1, (if o.wrote then [o.stamped] else []) ++ r.2)

/-- Device-level state touched by `bh_work` and the entry points: the hif
state, the wake GPIO (presence and level), the protocol-version branch of
`device_wakeup`, the chip's buffer capacity, the outbound queue, and the
flags read by the idle decision. -/
structure Dev where
  hif : Hif
  gpio_present : Bool
  gpio_value : Bool
  api_old : Bool
  numInpChBufs : Int
  tx_queue : List TxItem
  scan_in_progress : Bool
  work_pending : Bool
deriving DecidableEq

/-- Embedding of `device_wakeup` (`bh.c:19`): no-op without a wake GPIO or
when already asserted; otherwise assert it and, on the new-API branch,
wait (bounded) for `ctrl_ready` — re-completing it when it was already
done, logging a timeout otherwise.  Returns the state and whether the
wake timeout was logged. -/
def device_wakeup (dev : Dev) : Dev × Bool :=
  if dev.gpio_present = false then (dev, false)
  else if dev.gpio_value = true then (dev, false)
  else
    let dev1 := { dev with gpio_value := true }
    if dev.api_old then (dev1, false)
    else if dev.hif.ctrl_ready then (dev1, false)
    else (dev1, true)

/-- Embedding of `device_release` (`bh.c:42`): deassert the wake GPIO when
present. -/
def device_release (dev : Dev) : Dev :=
  if dev.gpio_present then { dev with gpio_value := false } else dev

/-- The loop of `bh_work_tx` (`bh.c:207`): while credit is available and
the outbound queue yields a message, transmit it. -/
def bh_work_tx_go (dev : Dev) (idx : Nat) : Nat → Dev × Nat
  | 0 => (dev, idx)
  | fuel + 1 =>
    if dev.hif.tx_buffers_used < dev.numInpChBufs then
      match dev.tx_queue with
      | [] => (dev, idx)
      | (w, len, env) :: rest =>
        let o := tx_helper dev.hif w len env
        bh_work_tx_go { dev with hif := o.hif, tx_queue := rest } (idx + 1) fuel
    else
      (dev, idx)

/-- Embedding of `bh_work_tx` (`bh.c:201`). -/
def bh_work_tx (dev : Dev) (maxMsg : Nat) : Dev × Nat :=
  bh_work_tx_go dev 0 maxMsg

/-- Result of one `bh_work` invocation: final device state, the three
statistics counters (`stats_req`, `stats_cnf`, and `stats_ind` after the
confirmation subtraction), whether the last pump activity was a receive,
whether the chip was released, and whether the wake timeout was logged. -/
structure BhOut where
  dev : Dev
  stats_req : Nat
  stats_cnf : Nat
  stats_ind : Nat
  last_op_is_rx : Bool
  release_chip : Bool
  logged_wake_timeout : Bool
deriving DecidableEq

/-- The do-while loop of `bh_work` (`bh.c:241`): run the transmit pump
then the receive pump, accumulate statistics, and repeat while either
made progress.  `inputs` gives the bus contents per round and iteration;
`fuel` bounds the number of rounds. -/
def bh_work_loop (inputs : Nat → Nat → RxInput) (round : Nat) (dev : Dev)
    (sreq scnf sind : Nat) (lastRx : Bool) :
    Nat → Dev × Nat × Nat × Nat × Bool
  | 0 => (dev, sreq, scnf, sind, lastRx)
  | fuel + 1 =>
    let t := bh_work_tx dev 32
    let lastRx1 := if t.2 ≠ 0 then false else lastRx
    let r := bh_work_rx (inputs round) 32 t.1.hif scnf
    let dev2 := { t.1 with hif := r.hif }
    let lastRx2 := if r.count ≠ 0 then true else lastRx1
    if r.count = 0 ∧ t.2 = 0 then
      (dev2, sreq + t.2, r.num_cnf, sind + r.count, lastRx2)
    else
      bh_work_loop inputs (round + 1) dev2 (sreq + t.2) r.num_cnf
        (sind + r.count) lastRx2 fuel

/-- Embedding of `bh_work` (`bh.c:233`): wake the device, pump until
quiescent (the do-while body always runs at least once), then decide
whether to release the chip.  The SDIO acknowledge touches no modelled
state. -/
def bh_work (inputs : Nat → Nat → RxInput) (dev : Dev) (fuel : Nat) : BhOut :=
  let w := device_wakeup dev
  let l := bh_work_loop inputs 0 w.1 0 0 0 false (fuel + 1)
  let dev2 := l.1
  let sreq := l.2.1
  let scnf := l.2.2.1
  let sind := l.2.2.2.1
  let lastRx := l.2.2.2.2
  let cond := dev2.hif.tx_buffers_used = 0 ∧ dev2.work_pending = false ∧
      dev2.scan_in_progress = false
  if cond then
    { dev := device_release dev2, stats_req := sreq, stats_cnf := scnf,
      stats_ind := sind - scnf, last_op_is_rx := lastRx,
      release_chip := true, logged_wake_timeout := w.2 }
  else
    { dev := dev2, stats_req := sreq, stats_cnf := scnf,
      stats_ind := sind - scnf, last_op_is_rx := lastRx,
      release_chip := false, logged_wake_timeout := w.2 }

/-- Result of `wfx_bh_request_rx`: updated device state, the exchanged-out
previous snapshot, whether the worker was queued, and the two diagnostic
log flags. -/
structure ReqRxOut where
  dev : Dev
  prev : Nat
  queued : Bool
  logged_zero_len : Bool
  logged_unread : Bool
deriving DecidableEq

/-- Embedding of `wfx_bh_request_rx` (`bh.c:267`): latch the freshly read
control value `cur` by atomic exchange, signal `ctrl_ready`, queue the
worker, then log (only) a zero length field or a still-unread previous
snapshot. -/
def wfx_bh_request_rx (dev : Dev) (cur : Nat) : ReqRxOut :=
  let prev := dev.hif.ctrl_reg
  { dev := { dev with hif := { dev.hif with ctrl_reg := cur, ctrl_ready := true } },
    prev := prev, queued := true,
    logged_zero_len := decide (cur &&& CTRL_NEXT_LEN_MASK = 0),
    logged_unread := decide (prev ≠ 0) }

lemma eff_ctrl_tx_buffers_used (hif : Hif) (p : Nat) :
    ((eff_ctrl hif p).2).tx_buffers_used = hif.tx_buffers_used := by
  unfold eff_ctrl
  split
  · rfl
  · split <;> rfl

lemma eff_ctrl_rx_seqnum (hif : Hif) (p : Nat) :
    ((eff_ctrl hif p).2).rx_seqnum = hif.rx_seqnum := by
  unfold eff_ctrl
  split
  · rfl
  · split <;> rfl

lemma eff_ctrl_tx_seqnum (hif : Hif) (p : Nat) :
    ((eff_ctrl hif p).2).tx_seqnum = hif.tx_seqnum := by
  unfold eff_ctrl
  split
  · rfl
  · split <;> rfl

lemma eff_ctrl_mask_zero (hif : Hif) (p : Nat)
    (h : (eff_ctrl hif p).1 &&& CTRL_NEXT_LEN_MASK = 0) :
    p &&& CTRL_NEXT_LEN_MASK = 0 := by
  by_cases hp : p &&& CTRL_NEXT_LEN_MASK = 0
  · exact hp
  · exact absurd h (by simp [eff_ctrl, hp])

lemma tx_helper_stamped (hif : Hif) (w : Wmsg) (len : Nat) (env : TxEnv) :
    (tx_helper hif w len env).stamped = hif.tx_seqnum := by
  unfold tx_helper
  split
  · rfl
  · split <;> rfl

lemma tx_helper_tx_seqnum (hif : Hif) (w : Wmsg) (len : Nat) (env : TxEnv) :
    (tx_helper hif w len env).hif.tx_seqnum =
      (hif.tx_seqnum + 1) % (WMSG_COUNTER_MAX + 1) := by
  unfold tx_helper
  split
  · rfl
  · split <;> rfl

/-- C3 counterexample: with the bus write failing, `tx_helper` leaves
`tx_buffers_used` at 0, while the same transmit with a successful write
moves it to 1 — the credit is not counted as consumed on failure. -/
theorem txfail_counter_counterexample :
    (tx_helper ⟨0, 0, 0, 0, false⟩ ⟨0, 4, 0, 0, 0⟩ 4
        ⟨false, true, true, false⟩).hif.tx_buffers_used = 0 ∧
    (tx_helper ⟨0, 0, 0, 0, false⟩ ⟨0, 4, 0, 0, 0⟩ 4
        ⟨false, true, true, true⟩).hif.tx_buffers_used = 1 := by
  decide

/-- C3 (amended): for every transmit whose bus write fails, the used
credit counter is left unchanged (the increment happens only after a
successful write), nothing is written, and the write is attempted at most
once — no retry. -/
theorem txfail_counter_unchanged (hif : Hif) (w : Wmsg) (len : Nat)
    (env : TxEnv) (hw : env.write_ok = false) :
    (tx_helper hif w len env).hif.tx_buffers_used = hif.tx_buffers_used ∧
    (tx_helper hif w len env).wrote = false ∧
    (tx_helper hif w len env).write_attempts ≤ 1 := by
  unfold tx_helper
  split
  · exact ⟨rfl, rfl, by simp⟩
  · simp [hw]

/-- C3 witness: the amended statement evaluated at a concrete failing
write. -/
theorem txfail_counter_unchanged_witness :
    (tx_helper ⟨2, 5, 0, 0, false⟩ ⟨0, 4, 0, 0, 0⟩ 4
        ⟨false, true, true, false⟩).hif.tx_buffers_used = (2 : Int) ∧
    (tx_helper ⟨2, 5, 0, 0, false⟩ ⟨0, 4, 0, 0, 0⟩ 4
        ⟨false, true, true, false⟩).wrote = false ∧
    (tx_helper ⟨2, 5, 0, 0, false⟩ ⟨0, 4, 0, 0, 0⟩ 4
        ⟨false, true, true, false⟩).write_attempts ≤ 1 :=
  txfail_counter_unchanged ⟨2, 5, 0, 0, false⟩ ⟨0, 4, 0, 0, 0⟩ 4
    ⟨false, true, true, false⟩ (by decide)

/-- C4 counterexample: starting from `tx_seqnum = 3`, three queued
messages of which the middle one fails its bus write produce the wire
sequence `[3, 5]`: the consecutive wire-observed pair has `5`, not
`(3 + 1) % (WMSG_COUNTER_MAX + 1) = 4`. -/
theorem wire_seqnum_gap_counterexample :
    (tx_run ⟨0, 3, 0, 0, false⟩
      [(⟨0, 4, 0, 0, 0⟩, 4, ⟨false, true, true, true⟩),
       (⟨0, 4, 0, 0, 0⟩, 4, ⟨false, true, true, false⟩),
       (⟨0, 4, 0, 0, 0⟩, 4, ⟨false, true, true, true⟩)]).2 = [3, 5] ∧
    (5 : Nat) ≠ (3 + 1) % (WMSG_COUNTER_MAX + 1) := by
  decide

/-- C4 (amended): for every consecutive pair of transmit attempts, the
sequence number stamped into the later one is `(previous + 1) mod
(WMSG_COUNTER_MAX + 1)`, over the full wrap range; wire-observed
consecutive messages obey this whenever no intervening attempt failed. -/
theorem tx_seqnum_consecutive_attempts (hif : Hif) (w1 w2 : Wmsg)
    (l1 l2 : Nat) (e1 e2 : TxEnv) :
    (tx_helper (tx_helper hif w1 l1 e1).hif w2 l2 e2).stamped =
      ((tx_helper hif w1 l1 e1).stamped + 1) % (WMSG_COUNTER_MAX + 1) := by
  rw [tx_helper_stamped, tx_helper_tx_seqnum, tx_helper_stamped]

/-- C10: every call to the interrupt entry point latches the fresh
control value into the snapshot, re-arms the ready completion, and queues
the worker; a zero length field or a still-unread previous snapshot is
only logged, and the sequence and credit state is untouched. -/
theorem request_rx_always_latches (dev : Dev) (cur : Nat) :
    (wfx_bh_request_rx dev cur).dev.hif.ctrl_reg = cur ∧
    (wfx_bh_request_rx dev cur).dev.hif.ctrl_ready = true ∧
    (wfx_bh_request_rx dev cur).queued = true ∧
    ((wfx_bh_request_rx dev cur).logged_zero_len = true ↔
      cur &&& CTRL_NEXT_LEN_MASK = 0) ∧
    ((wfx_bh_request_rx dev cur).logged_unread = true ↔
      dev.hif.ctrl_reg ≠ 0) ∧
    (wfx_bh_request_rx dev cur).dev.hif.tx_buffers_used =
      dev.hif.tx_buffers_used ∧
    (wfx_bh_request_rx dev cur).dev.hif.rx_seqnum = dev.hif.rx_seqnum ∧
    (wfx_bh_request_rx dev cur).dev.hif.tx_seqnum = dev.hif.tx_seqnum := by
  simp [wfx_bh_request_rx]

/-- C1 counterexample: a confirmation arriving with `tx_buffers_used = 0`
is processed normally (dispatched, piggyback returned) and drives the
counter to `-1`: the over-release does not fail, it corrupts the
counter. -/
theorem credit_underflow_counterexample :
    (rx_helper ⟨0, 0, 0, 0, false⟩
        ⟨true, true, 0x2000, ⟨0, 4, 0, 0, 0⟩, true⟩ 4 0).hif.tx_buffers_used
      = -1 ∧
    (rx_helper ⟨0, 0, 0, 0, false⟩
        ⟨true, true, 0x2000, ⟨0, 4, 0, 0, 0⟩, true⟩ 4 0).dispatched = true ∧
    (rx_helper ⟨0, 0, 0, 0, false⟩
        ⟨true, true, 0x2000, ⟨0, 4, 0, 0, 0⟩, true⟩ 4 0).ret = 0x2000 := by
  decide

/-- C1 (amended): for a confirmation whose release count exceeds the used
count, the over-release is detected and loudly reported (the corrupted
buffer counter warning fires), but the counter is decremented regardless
and goes below zero; there is no `Underflow` failure. -/
theorem credit_underflow_warn_and_decrement (hif : Hif) (inp : RxInput)
    (read_len numCnf : Nat)
    (ha : inp.alloc_ok = true) (hr : inp.read_ok = true)
    (hd : inp.wsm.encrypted = 2 → inp.sl_decode_ok = true)
    (hl : computed_len inp.wsm = read_len)
    (hc : inp.wsm.id &&& WMSG_ID_IS_INDICATION = 0)
    (hu : hif.tx_buffers_used < release_count inp.wsm) :
    (rx_helper hif inp read_len numCnf).warned_underflow = true ∧
    (rx_helper hif inp read_len numCnf).hif.tx_buffers_used =
      hif.tx_buffers_used - release_count inp.wsm ∧
    (rx_helper hif inp read_len numCnf).hif.tx_buffers_used < 0 := by
  have hnd : ¬(inp.wsm.encrypted = 2 ∧ inp.sl_decode_ok = false) := by
    rintro ⟨h2, hf⟩
    rw [hd h2] at hf
    cases hf
  by_cases hex : inp.wsm.id = HI_EXCEPTION_IND_ID ∨ inp.wsm.id = HI_ERROR_IND_ID <;>
    simp [rx_helper, ha, hr, hnd, hl, hc, hex, hu]

/-- C1 witness: the amended statement at the concrete over-release. -/
theorem credit_underflow_warn_and_decrement_witness :
    (rx_helper ⟨0, 0, 0, 0, false⟩
        ⟨true, true, 0x2000, ⟨0, 4, 0, 0, 0⟩, true⟩ 4 0).warned_underflow
      = true ∧
    (rx_helper ⟨0, 0, 0, 0, false⟩
        ⟨true, true, 0x2000, ⟨0, 4, 0, 0, 0⟩, true⟩ 4 0).hif.tx_buffers_used
      = 0 - release_count ⟨0, 4, 0, 0, 0⟩ ∧
    (rx_helper ⟨0, 0, 0, 0, false⟩
        ⟨true, true, 0x2000, ⟨0, 4, 0, 0, 0⟩, true⟩ 4 0).hif.tx_buffers_used
      < 0 :=
  credit_underflow_warn_and_decrement ⟨0, 0, 0, 0, false⟩
    ⟨true, true, 0x2000, ⟨0, 4, 0, 0, 0⟩, true⟩ 4 0
    (by decide) (by decide) (by decide) (by decide) (by decide) (by decide)

/-- C5 counterexample: a message carrying the reserved encryption value 1
and a consistent cleartext length is fully processed (dispatched, the
piggyback word returned) instead of being rejected; only the unsupported
encryption warning fires. -/
theorem reserved_encryption_counterexample :
    (rx_helper ⟨0, 0, 0, 0, false⟩
        ⟨true, true, 0x2005, ⟨1, 4, 0, 0x84, 0⟩, true⟩ 4 0).dispatched
      = true ∧
    (rx_helper ⟨0, 0, 0, 0, false⟩
        ⟨true, true, 0x2005, ⟨1, 4, 0, 0x84, 0⟩, true⟩ 4 0).warned_encryption
      = true ∧
    (rx_helper ⟨0, 0, 0, 0, false⟩
        ⟨true, true, 0x2005, ⟨1, 4, 0, 0x84, 0⟩, true⟩ 4 0).ret = 0x2005 := by
  decide

/-- C5 (amended): a received message whose encryption field holds the
reserved value 1 raises a (non-fatal) unsupported-encryption warning but
is then treated as unencrypted: when its cleartext-computed length matches
the announced one it is dispatched and the receive cycle continues. -/
theorem reserved_encryption_warn_and_process (hif : Hif) (inp : RxInput)
    (read_len numCnf : Nat)
    (ha : inp.alloc_ok = true) (hr : inp.read_ok = true)
    (he : inp.wsm.encrypted = 1)
    (hl : computed_len inp.wsm = read_len) :
    (rx_helper hif inp read_len numCnf).warned_encryption = true ∧
    (rx_helper hif inp read_len numCnf).dispatched = true ∧
    (rx_helper hif inp read_len numCnf).ret = (inp.piggyback : Int) := by
  have hnd : ¬(inp.wsm.encrypted = 2 ∧ inp.sl_decode_ok = false) := by
    rintro ⟨h2, hf⟩
    rw [he] at h2
    cases h2
  by_cases hex : inp.wsm.id = HI_EXCEPTION_IND_ID ∨ inp.wsm.id = HI_ERROR_IND_ID <;>
    by_cases hc : inp.wsm.id &&& WMSG_ID_IS_INDICATION = 0 <;>
      simp [rx_helper, ha, hr, hnd, hl, hc, hex, he]

/-- C5 witness: the amended statement at the concrete reserved-encryption
message. -/
theorem reserved_encryption_warn_and_process_witness :
    (rx_helper ⟨0, 0, 0, 0, false⟩
        ⟨true, true, 0x2005, ⟨1, 6, 0, 0x84, 0⟩, true⟩ 6 0).warned_encryption
      = true ∧
    (rx_helper ⟨0, 0, 0, 0, false⟩
        ⟨true, true, 0x2005, ⟨1, 6, 0, 0x84, 0⟩, true⟩ 6 0).dispatched
      = true ∧
    (rx_helper ⟨0, 0, 0, 0, false⟩
        ⟨true, true, 0x2005, ⟨1, 6, 0, 0x84, 0⟩, true⟩ 6 0).ret
      = ((0x2005 : Nat) : Int) :=
  reserved_encryption_warn_and_process ⟨0, 0, 0, 0, false⟩
    ⟨true, true, 0x2005, ⟨1, 6, 0, 0x84, 0⟩, true⟩ 6 0
    (by decide) (by decide) (by decide) (by decide)

/-- C6 counterexample: an announced length of 2 — shorter than the 4-byte
minimum header — is not rejected: the buffer is parsed as an envelope and
dispatched; only the `WARN_ON` fires. -/
theorem short_read_counterexample :
    (rx_helper ⟨0, 0, 0, 0, false⟩
        ⟨true, true, 0x2000, ⟨0, 2, 0, 0x84, 0⟩, true⟩ 2 0).dispatched
      = true ∧
    (rx_helper ⟨0, 0, 0, 0, false⟩
        ⟨true, true, 0x2000, ⟨0, 2, 0, 0x84, 0⟩, true⟩ 2 0).warned_short
      = true := by
  decide

/-- C6 (amended): a receive whose announced length is below the minimum
header size raises a warning, but the buffer is still parsed: when the
rest of the pipeline succeeds the message is dispatched as usual. -/
theorem short_read_warn_and_continue (hif : Hif) (inp : RxInput)
    (read_len numCnf : Nat) (hs : read_len < 4) :
    (rx_helper hif inp read_len numCnf).warned_short = true ∧
    (inp.alloc_ok = true → inp.read_ok = true →
      (inp.wsm.encrypted = 2 → inp.sl_decode_ok = true) →
      computed_len inp.wsm = read_len →
      (rx_helper hif inp read_len numCnf).dispatched = true) := by
  constructor
  · simp only [rx_helper, rxErr]
    repeat' split
    all_goals simp [hs]
  · intro ha hr hd hl
    have hnd : ¬(inp.wsm.encrypted = 2 ∧ inp.sl_decode_ok = false) := by
      rintro ⟨h2, hf⟩
      rw [hd h2] at hf
      cases hf
    by_cases hex : inp.wsm.id = HI_EXCEPTION_IND_ID ∨ inp.wsm.id = HI_ERROR_IND_ID <;>
      by_cases hc : inp.wsm.id &&& WMSG_ID_IS_INDICATION = 0 <;>
        simp [rx_helper, ha, hr, hnd, hl, hc, hex]

/-- C6 witness: the amended statement at the concrete 2-byte read. -/
theorem short_read_warn_and_continue_witness :
    (rx_helper ⟨0, 0, 0, 0, false⟩
        ⟨true, true, 0x2000, ⟨0, 2, 0, 0x84, 0⟩, true⟩ 2 0).warned_short
      = true ∧
    ((⟨true, true, 0x2000, ⟨0, 2, 0, 0x84, 0⟩, true⟩ : RxInput).alloc_ok = true →
      (⟨true, true, 0x2000, ⟨0, 2, 0, 0x84, 0⟩, true⟩ : RxInput).read_ok = true →
      ((⟨true, true, 0x2000, ⟨0, 2, 0, 0x84, 0⟩, true⟩ : RxInput).wsm.encrypted = 2 →
        (⟨true, true, 0x2000, ⟨0, 2, 0, 0x84, 0⟩, true⟩ : RxInput).sl_decode_ok = true) →
      computed_len (⟨true, true, 0x2000, ⟨0, 2, 0, 0x84, 0⟩, true⟩ : RxInput).wsm = 2 →
      (rx_helper ⟨0, 0, 0, 0, false⟩
          ⟨true, true, 0x2000, ⟨0, 2, 0, 0x84, 0⟩, true⟩ 2 0).dispatched = true) :=
  short_read_warn_and_continue ⟨0, 0, 0, 0, false⟩
    ⟨true, true, 0x2000, ⟨0, 2, 0, 0x84, 0⟩, true⟩ 2 0 (by decide)

/-- C7: for a successfully decoded message with a non-exempt id, a
sequence mismatch raises exactly a (non-fatal) warning and `rx_seqnum` is
resynchronized to `(received + 1) mod (WMSG_COUNTER_MAX + 1)` whether or
not it matched; the two exempt exception/error ids leave `rx_seqnum`
untouched; the message is dispatched in every case. -/
theorem rx_seqnum_resync (hif : Hif) (inp : RxInput)
    (read_len numCnf : Nat)
    (ha : inp.alloc_ok = true) (hr : inp.read_ok = true)
    (hd : inp.wsm.encrypted = 2 → inp.sl_decode_ok = true)
    (hl : computed_len inp.wsm = read_len) :
    ((inp.wsm.id ≠ HI_EXCEPTION_IND_ID ∧ inp.wsm.id ≠ HI_ERROR_IND_ID) →
      (rx_helper hif inp read_len numCnf).hif.rx_seqnum =
        (inp.wsm.seqnum + 1) % (WMSG_COUNTER_MAX + 1) ∧
      ((rx_helper hif inp read_len numCnf).warned_seq = true ↔
        inp.wsm.seqnum ≠ hif.rx_seqnum)) ∧
    ((inp.wsm.id = HI_EXCEPTION_IND_ID ∨ inp.wsm.id = HI_ERROR_IND_ID) →
      (rx_helper hif inp read_len numCnf).hif.rx_seqnum = hif.rx_seqnum ∧
      (rx_helper hif inp read_len numCnf).warned_seq = false) ∧
    (rx_helper hif inp read_len numCnf).dispatched = true := by
  have hnd : ¬(inp.wsm.encrypted = 2 ∧ inp.sl_decode_ok = false) := by
    rintro ⟨h2, hf⟩
    rw [hd h2] at hf
    cases hf
  refine ⟨fun h => ?_, fun hex => ?_, ?_⟩
  · have hex : ¬(inp.wsm.id = HI_EXCEPTION_IND_ID ∨ inp.wsm.id = HI_ERROR_IND_ID) := by
      rcases h with ⟨h1, h2⟩
      tauto
    by_cases hc : inp.wsm.id &&& WMSG_ID_IS_INDICATION = 0 <;>
      simp [rx_helper, ha, hr, hnd, hl, hc, hex, h.1, h.2]
  · have hb1 : ¬(HI_EXCEPTION_IND_ID &&& WMSG_ID_IS_INDICATION = 0) := by decide
    have hb2 : ¬(HI_ERROR_IND_ID &&& WMSG_ID_IS_INDICATION = 0) := by decide
    rcases hex with h | h <;>
      simp [rx_helper, ha, hr, hnd, hl, h, hb1, hb2]
  · by_cases hex : inp.wsm.id = HI_EXCEPTION_IND_ID ∨ inp.wsm.id = HI_ERROR_IND_ID <;>
      by_cases hc : inp.wsm.id &&& WMSG_ID_IS_INDICATION = 0 <;>
        simp [rx_helper, ha, hr, hnd, hl, hc, hex]

/-- C7 witness: the statement at a concrete non-exempt message whose
sequence field 2 mismatches the expected 5; the counter resynchronizes
to 3. -/
theorem rx_seqnum_resync_witness :
    (((⟨true, true, 0x2000, ⟨0, 4, 2, 0x84, 0⟩, true⟩ : RxInput).wsm.id ≠
        HI_EXCEPTION_IND_ID ∧
      (⟨true, true, 0x2000, ⟨0, 4, 2, 0x84, 0⟩, true⟩ : RxInput).wsm.id ≠
        HI_ERROR_IND_ID) →
      (rx_helper ⟨0, 0, 5, 0, false⟩
          ⟨true, true, 0x2000, ⟨0, 4, 2, 0x84, 0⟩, true⟩ 4 0).hif.rx_seqnum =
        ((⟨true, true, 0x2000, ⟨0, 4, 2, 0x84, 0⟩, true⟩ : RxInput).wsm.seqnum + 1) %
          (WMSG_COUNTER_MAX + 1) ∧
      ((rx_helper ⟨0, 0, 5, 0, false⟩
          ⟨true, true, 0x2000, ⟨0, 4, 2, 0x84, 0⟩, true⟩ 4 0).warned_seq = true ↔
        (⟨true, true, 0x2000, ⟨0, 4, 2, 0x84, 0⟩, true⟩ : RxInput).wsm.seqnum ≠
          (⟨0, 0, 5, 0, false⟩ : Hif).rx_seqnum)) ∧
    (((⟨true, true, 0x2000, ⟨0, 4, 2, 0x84, 0⟩, true⟩ : RxInput).wsm.id =
        HI_EXCEPTION_IND_ID ∨
      (⟨true, true, 0x2000, ⟨0, 4, 2, 0x84, 0⟩, true⟩ : RxInput).wsm.id =
        HI_ERROR_IND_ID) →
      (rx_helper ⟨0, 0, 5, 0, false⟩
          ⟨true, true, 0x2000, ⟨0, 4, 2, 0x84, 0⟩, true⟩ 4 0).hif.rx_seqnum =
        (⟨0, 0, 5, 0, false⟩ : Hif).rx_seqnum ∧
      (rx_helper ⟨0, 0, 5, 0, false⟩
          ⟨true, true, 0x2000, ⟨0, 4, 2, 0x84, 0⟩, true⟩ 4 0).warned_seq = false) ∧
    (rx_helper ⟨0, 0, 5, 0, false⟩
        ⟨true, true, 0x2000, ⟨0, 4, 2, 0x84, 0⟩, true⟩ 4 0).dispatched = true :=
  rx_seqnum_resync ⟨0, 0, 5, 0, false⟩
    ⟨true, true, 0x2000, ⟨0, 4, 2, 0x84, 0⟩, true⟩ 4 0
    (by decide) (by decide) (by decide) (by decide)

/-- C2: a received message whose recomputed on-wire length differs from
the announced one makes `rx_helper` fail with the length-mismatch error
(`-EIO`), and the surrounding receive iteration stops at the partial
count `idx`, leaving the credit counter and both sequence counters
exactly as they were before the message. -/
theorem length_mismatch_aborts_cycle (inputs : Nat → RxInput) (hif : Hif)
    (numCnf fuel idx piggyback : Nat)
    (hw : (eff_ctrl hif piggyback).1 &&& CTRL_NEXT_LEN_MASK ≠ 0)
    (ha : (inputs idx).alloc_ok = true)
    (hr : (inputs idx).read_ok = true)
    (hd : (inputs idx).wsm.encrypted = 2 → (inputs idx).sl_decode_ok = true)
    (hm : computed_len (inputs idx).wsm ≠
      ((eff_ctrl hif piggyback).1 &&& CTRL_NEXT_LEN_MASK) * 2) :
    (rx_helper (eff_ctrl hif piggyback).2 (inputs idx)
        (((eff_ctrl hif piggyback).1 &&& CTRL_NEXT_LEN_MASK) * 2)
        numCnf).logged_len_mismatch = true ∧
    (rx_helper (eff_ctrl hif piggyback).2 (inputs idx)
        (((eff_ctrl hif piggyback).1 &&& CTRL_NEXT_LEN_MASK) * 2)
        numCnf).ret = -5 ∧
    (bh_work_rx_go inputs hif numCnf piggyback idx (fuel + 1)).count = idx ∧
    (bh_work_rx_go inputs hif numCnf piggyback idx (fuel + 1)).num_cnf
      = numCnf ∧
    (bh_work_rx_go inputs hif numCnf piggyback idx
        (fuel + 1)).hif.tx_buffers_used = hif.tx_buffers_used ∧
    (bh_work_rx_go inputs hif numCnf piggyback idx
        (fuel + 1)).hif.rx_seqnum = hif.rx_seqnum ∧
    (bh_work_rx_go inputs hif numCnf piggyback idx
        (fuel + 1)).hif.tx_seqnum = hif.tx_seqnum := by
  have hnd : ¬((inputs idx).wsm.encrypted = 2 ∧
      (inputs idx).sl_decode_ok = false) := by
    rintro ⟨h2, hf⟩
    rw [hd h2] at hf
    cases hf
  have he : rx_helper (eff_ctrl hif piggyback).2 (inputs idx)
      (((eff_ctrl hif piggyback).1 &&& CTRL_NEXT_LEN_MASK) * 2) numCnf =
      rxErr (eff_ctrl hif piggyback).2 numCnf (-5)
        (decide ((((eff_ctrl hif piggyback).1 &&& CTRL_NEXT_LEN_MASK) * 2) < 4))
        (decide ((inputs idx).wsm.encrypted &&& 1 ≠ 0)) true := by
    simp [rx_helper, ha, hr, hnd, hm]
  have hgo : bh_work_rx_go inputs hif numCnf piggyback idx (fuel + 1) =
      bhRxStop idx (eff_ctrl hif piggyback).2 numCnf (-5) := by
    simp only [bh_work_rx_go]
    rw [if_neg hw, he]
    simp [rxErr, bhRxStop]
  rw [he, hgo]
  simp [rxErr, bhRxStop, eff_ctrl_tx_buffers_used, eff_ctrl_rx_seqnum,
    eff_ctrl_tx_seqnum]

/-- C2 witness: the statement at the spec's concrete scenario — announced
length 16 (control word `0x2008`), computed length 14. -/
theorem length_mismatch_aborts_cycle_witness :
    (rx_helper (eff_ctrl ⟨0, 0, 0, 0x2008, true⟩ 0).2
        ⟨true, true, 0x2000, ⟨0, 13, 0, 0x84, 0⟩, true⟩
        (((eff_ctrl ⟨0, 0, 0, 0x2008, true⟩ 0).1 &&& CTRL_NEXT_LEN_MASK) * 2)
        0).logged_len_mismatch = true ∧
    (rx_helper (eff_ctrl ⟨0, 0, 0, 0x2008, true⟩ 0).2
        ⟨true, true, 0x2000, ⟨0, 13, 0, 0x84, 0⟩, true⟩
        (((eff_ctrl ⟨0, 0, 0, 0x2008, true⟩ 0).1 &&& CTRL_NEXT_LEN_MASK) * 2)
        0).ret = -5 ∧
    (bh_work_rx_go (fun _ => ⟨true, true, 0x2000, ⟨0, 13, 0, 0x84, 0⟩, true⟩)
        ⟨0, 0, 0, 0x2008, true⟩ 0 0 0 (31 + 1)).count = 0 ∧
    (bh_work_rx_go (fun _ => ⟨true, true, 0x2000, ⟨0, 13, 0, 0x84, 0⟩, true⟩)
        ⟨0, 0, 0, 0x2008, true⟩ 0 0 0 (31 + 1)).num_cnf = 0 ∧
    (bh_work_rx_go (fun _ => ⟨true, true, 0x2000, ⟨0, 13, 0, 0x84, 0⟩, true⟩)
        ⟨0, 0, 0, 0x2008, true⟩ 0 0 0 (31 + 1)).hif.tx_buffers_used =
      (⟨0, 0, 0, 0x2008, true⟩ : Hif).tx_buffers_used ∧
    (bh_work_rx_go (fun _ => ⟨true, true, 0x2000, ⟨0, 13, 0, 0x84, 0⟩, true⟩)
        ⟨0, 0, 0, 0x2008, true⟩ 0 0 0 (31 + 1)).hif.rx_seqnum =
      (⟨0, 0, 0, 0x2008, true⟩ : Hif).rx_seqnum ∧
    (bh_work_rx_go (fun _ => ⟨true, true, 0x2000, ⟨0, 13, 0, 0x84, 0⟩, true⟩)
        ⟨0, 0, 0, 0x2008, true⟩ 0 0 0 (31 + 1)).hif.tx_seqnum =
      (⟨0, 0, 0, 0x2008, true⟩ : Hif).tx_seqnum :=
  length_mismatch_aborts_cycle
    (fun _ => ⟨true, true, 0x2000, ⟨0, 13, 0, 0x84, 0⟩, true⟩)
    ⟨0, 0, 0, 0x2008, true⟩ 0 31 0 0
    (by decide) (by decide) (by decide) (by decide) (by decide)

lemma bh_work_rx_go_relatch (inputs : Nat → RxInput) :
    ∀ (fuel : Nat) (hif : Hif) (numCnf piggyback idx : Nat),
      0 ≤ (bh_work_rx_go inputs hif numCnf piggyback idx fuel).stop_piggyback →
      (bh_work_rx_go inputs hif numCnf piggyback idx
          fuel).stop_piggyback.toNat &&& CTRL_NEXT_LEN_MASK ≠ 0 →
      (bh_work_rx_go inputs hif numCnf piggyback idx fuel).relatched = true ∧
      (bh_work_rx_go inputs hif numCnf piggyback idx fuel).hif.ctrl_reg =
        (bh_work_rx_go inputs hif numCnf piggyback idx
          fuel).stop_piggyback.toNat ∧
      (bh_work_rx_go inputs hif numCnf piggyback idx fuel).hif.ctrl_ready
        = true ∧
      ((bh_work_rx_go inputs hif numCnf piggyback idx
          fuel).logged_unexpected_irq = true ↔
        (bh_work_rx_go inputs hif numCnf piggyback idx fuel).relatch_prev
          ≠ 0) := by
  intro fuel
  induction fuel with
  | zero =>
    intro hif numCnf piggyback idx hp hm
    by_cases h : piggyback &&& CTRL_NEXT_LEN_MASK = 0
    · exfalso
      apply hm
      simp [bh_work_rx_go, h, bhRxStop]
    · simp [bh_work_rx_go, h, bhRxStop]
  | succ fuel ih =>
    intro hif numCnf piggyback idx hp hm
    by_cases h1 : (eff_ctrl hif piggyback).1 &&& CTRL_NEXT_LEN_MASK = 0
    · exfalso
      apply hm
      simp only [bh_work_rx_go]
      rw [if_pos h1]
      simpa [bhRxStop] using eff_ctrl_mask_zero hif piggyback h1
    · by_cases h2 : (rx_helper (eff_ctrl hif piggyback).2 (inputs idx)
          (((eff_ctrl hif piggyback).1 &&& CTRL_NEXT_LEN_MASK) * 2)
          numCnf).ret < 0
      · exfalso
        have hs : (bh_work_rx_go inputs hif numCnf piggyback idx
            (fuel + 1)).stop_piggyback =
            (rx_helper (eff_ctrl hif piggyback).2 (inputs idx)
              (((eff_ctrl hif piggyback).1 &&& CTRL_NEXT_LEN_MASK) * 2)
              numCnf).ret := by
          simp only [bh_work_rx_go]
          rw [if_neg h1, if_pos h2]
          rfl
        rw [hs] at hp
        omega
      · have hs : bh_work_rx_go inputs hif numCnf piggyback idx (fuel + 1) =
            bh_work_rx_go inputs
              (rx_helper (eff_ctrl hif piggyback).2 (inputs idx)
                (((eff_ctrl hif piggyback).1 &&& CTRL_NEXT_LEN_MASK) * 2)
                numCnf).hif
              (rx_helper (eff_ctrl hif piggyback).2 (inputs idx)
                (((eff_ctrl hif piggyback).1 &&& CTRL_NEXT_LEN_MASK) * 2)
                numCnf).num_cnf
              (rx_helper (eff_ctrl hif piggyback).2 (inputs idx)
                (((eff_ctrl hif piggyback).1 &&& CTRL_NEXT_LEN_MASK) * 2)
                numCnf).ret.toNat
              (idx + 1) fuel := by
          simp only [bh_work_rx_go]
          rw [if_neg h1, if_neg h2]
        rw [hs] at hp hm ⊢
        exact ih _ _ _ _ hp hm

/-- C8: whenever the receive loop stops with the last piggyback word
still announcing a pending next length, that value has been stored into
the shared control-register snapshot (by the modelled atomic exchange)
and the interrupt-ready completion re-armed, and the unexpected-IRQ
diagnostic is logged exactly when the exchanged-out previous snapshot was
non-zero — non-fatally, the pump still returning its full count. -/
theorem piggyback_relatch (inputs : Nat → RxInput) (maxMsg : Nat)
    (hif : Hif) (numCnf : Nat)
    (hp : 0 ≤ (bh_work_rx inputs maxMsg hif numCnf).stop_piggyback)
    (hm : (bh_work_rx inputs maxMsg hif
        numCnf).stop_piggyback.toNat &&& CTRL_NEXT_LEN_MASK ≠ 0) :
    (bh_work_rx inputs maxMsg hif numCnf).relatched = true ∧
    (bh_work_rx inputs maxMsg hif numCnf).hif.ctrl_reg =
      (bh_work_rx inputs maxMsg hif numCnf).stop_piggyback.toNat ∧
    (bh_work_rx inputs maxMsg hif numCnf).hif.ctrl_ready = true ∧
    ((bh_work_rx inputs maxMsg hif numCnf).logged_unexpected_irq = true ↔
      (bh_work_rx inputs maxMsg hif numCnf).relatch_prev ≠ 0) ∧
    (bh_work_rx inputs maxMsg hif numCnf).count = maxMsg := by
  have hcount : ∀ (fuel : Nat) (h : Hif) (n p i : Nat),
      (bh_work_rx_go inputs h n p i fuel).relatched = true →
      (bh_work_rx_go inputs h n p i fuel).count = i + fuel := by
    intro fuel
    induction fuel with
    | zero =>
      intro h n p i hr
      by_cases hz : p &&& CTRL_NEXT_LEN_MASK = 0
      · exfalso
        simp [bh_work_rx_go, hz, bhRxStop] at hr
      · simp [bh_work_rx_go, hz]
    | succ fuel ih =>
      intro h n p i hr
      by_cases h1 : (eff_ctrl h p).1 &&& CTRL_NEXT_LEN_MASK = 0
      · exfalso
        simp only [bh_work_rx_go] at hr
        rw [if_pos h1] at hr
        simp [bhRxStop] at hr
      · by_cases h2 : (rx_helper (eff_ctrl h p).2 (inputs i)
            (((eff_ctrl h p).1 &&& CTRL_NEXT_LEN_MASK) * 2) n).ret < 0
        · exfalso
          simp only [bh_work_rx_go] at hr
          rw [if_neg h1, if_pos h2] at hr
          simp [bhRxStop] at hr
        · have hs : bh_work_rx_go inputs h n p i (fuel + 1) =
              bh_work_rx_go inputs
                (rx_helper (eff_ctrl h p).2 (inputs i)
                  (((eff_ctrl h p).1 &&& CTRL_NEXT_LEN_MASK) * 2) n).hif
                (rx_helper (eff_ctrl h p).2 (inputs i)
                  (((eff_ctrl h p).1 &&& CTRL_NEXT_LEN_MASK) * 2) n).num_cnf
                (rx_helper (eff_ctrl h p).2 (inputs i)
                  (((eff_ctrl h p).1 &&& CTRL_NEXT_LEN_MASK) * 2) n).ret.toNat
                (i + 1) fuel := by
            simp only [bh_work_rx_go]
            rw [if_neg h1, if_neg h2]
          rw [hs] at hr ⊢
          rw [ih _ _ _ _ hr]
          omega
  have hmain := bh_work_rx_go_relatch inputs maxMsg hif numCnf 0 0 hp hm
  refine ⟨hmain.1, hmain.2.1, hmain.2.2.1, hmain.2.2.2, ?_⟩
  have := hcount maxMsg hif numCnf 0 0 hmain.1
  simpa [bh_work_rx] using this

/-- C8 witness: a one-message budget consumed from the snapshot, whose
piggyback word `0x2001` still announces a pending length; the loop
re-latches it with a previously-clear snapshot (no unexpected-IRQ log). -/
theorem piggyback_relatch_witness :
    (0 : Int) ≤ (bh_work_rx (fun _ => ⟨true, true, 0x2001, ⟨0, 2, 0, 0x84, 0⟩, true⟩)
        1 ⟨0, 0, 0, 0x2001, true⟩ 0).stop_piggyback ∧
    ((bh_work_rx (fun _ => ⟨true, true, 0x2001, ⟨0, 2, 0, 0x84, 0⟩, true⟩)
        1 ⟨0, 0, 0, 0x2001, true⟩ 0).relatched = true ∧
    (bh_work_rx (fun _ => ⟨true, true, 0x2001, ⟨0, 2, 0, 0x84, 0⟩, true⟩)
        1 ⟨0, 0, 0, 0x2001, true⟩ 0).hif.ctrl_reg =
      (bh_work_rx (fun _ => ⟨true, true, 0x2001, ⟨0, 2, 0, 0x84, 0⟩, true⟩)
        1 ⟨0, 0, 0, 0x2001, true⟩ 0).stop_piggyback.toNat ∧
    (bh_work_rx (fun _ => ⟨true, true, 0x2001, ⟨0, 2, 0, 0x84, 0⟩, true⟩)
        1 ⟨0, 0, 0, 0x2001, true⟩ 0).hif.ctrl_ready = true ∧
    ((bh_work_rx (fun _ => ⟨true, true, 0x2001, ⟨0, 2, 0, 0x84, 0⟩, true⟩)
        1 ⟨0, 0, 0, 0x2001, true⟩ 0).logged_unexpected_irq = true ↔
      (bh_work_rx (fun _ => ⟨true, true, 0x2001, ⟨0, 2, 0, 0x84, 0⟩, true⟩)
        1 ⟨0, 0, 0, 0x2001, true⟩ 0).relatch_prev ≠ 0) ∧
    (bh_work_rx (fun _ => ⟨true, true, 0x2001, ⟨0, 2, 0, 0x84, 0⟩, true⟩)
        1 ⟨0, 0, 0, 0x2001, true⟩ 0).count = 1) :=
  ⟨by decide,
    piggyback_relatch (fun _ => ⟨true, true, 0x2001, ⟨0, 2, 0, 0x84, 0⟩, true⟩)
      1 ⟨0, 0, 0, 0x2001, true⟩ 0 (by decide) (by decide)⟩

lemma bh_work_tx_go_idle (dev : Dev) (idx : Nat) (hq : dev.tx_queue = []) :
    ∀ fuel, bh_work_tx_go dev idx fuel = (dev, idx) := by
  intro fuel
  cases fuel with
  | zero => rfl
  | succ fuel =>
    simp only [bh_work_tx_go]
    split
    · rw [hq]
    · rfl

lemma bh_work_rx_go_idle (inputs : Nat → RxInput) (hif : Hif) (n : Nat)
    (hc : hif.ctrl_ready = false) :
    ∀ fuel, bh_work_rx_go inputs hif n 0 0 fuel = bhRxStop 0 hif n 0 := by
  intro fuel
  cases fuel with
  | zero => simp [bh_work_rx_go, bhRxStop]
  | succ fuel =>
    have he : eff_ctrl hif 0 = (0, hif) := by
      simp [eff_ctrl, hc]
    simp only [bh_work_rx_go]
    rw [he]
    simp

lemma bh_work_loop_idle (inputs : Nat → Nat → RxInput) (round : Nat)
    (dev : Dev) (sreq scnf sind : Nat) (lastRx : Bool) (fuel : Nat)
    (hq : dev.tx_queue = []) (hc : dev.hif.ctrl_ready = false) :
    bh_work_loop inputs round dev sreq scnf sind lastRx (fuel + 1) =
      (dev, sreq, scnf, sind, lastRx) := by
  have ht : bh_work_tx dev 32 = (dev, 0) := bh_work_tx_go_idle dev 0 hq 32
  have hr : bh_work_rx (inputs round) 32 dev.hif scnf =
      bhRxStop 0 dev.hif scnf 0 :=
    bh_work_rx_go_idle (inputs round) dev.hif scnf hc 32
  simp only [bh_work_loop]
  rw [ht, hr]
  simp [bhRxStop]

lemma device_wakeup_fst (dev : Dev) :
    (device_wakeup dev).1 =
      if dev.gpio_present = true ∧ dev.gpio_value = false then
        { dev with gpio_value := true }
      else dev := by
  cases hgp : dev.gpio_present <;> cases hgv : dev.gpio_value <;>
    cases hao : dev.api_old <;> cases hcr : dev.hif.ctrl_ready <;>
      simp [device_wakeup, hgp, hgv, hao, hcr]

/-- C9 counterexample: with no queued message and no unread snapshot but a
scan in progress and the wake GPIO deasserted, one worker run returns zero
work on both pumps yet asserts the wake signal and leaves it asserted — a
state mutation that is not the release of an already-idle wake signal. -/
theorem idle_bh_wake_assert_counterexample :
    (bh_work (fun _ _ => ⟨true, true, 0, ⟨0, 0, 0, 0, 0⟩, true⟩)
        ⟨⟨0, 0, 0, 0, false⟩, true, false, true, 4, [], true, false⟩
        0).stats_req = 0 ∧
    (bh_work (fun _ _ => ⟨true, true, 0, ⟨0, 0, 0, 0, 0⟩, true⟩)
        ⟨⟨0, 0, 0, 0, false⟩, true, false, true, 4, [], true, false⟩
        0).stats_ind = 0 ∧
    (bh_work (fun _ _ => ⟨true, true, 0, ⟨0, 0, 0, 0, 0⟩, true⟩)
        ⟨⟨0, 0, 0, 0, false⟩, true, false, true, 4, [], true, false⟩
        0).dev.gpio_value = true ∧
    (⟨⟨0, 0, 0, 0, false⟩, true, false, true, 4, [], true, false⟩ :
        Dev).gpio_value = false := by
  decide

/-- C9 (amended): invoking the worker with no queued outbound message and
no unread control-register snapshot returns zero work done on both pumps
and zero confirmations, and mutates no state other than the wake signal,
which is asserted on entry and released at the end exactly when no
credits are outstanding, no re-schedule is pending and no scan is in
progress — otherwise it remains (possibly newly) asserted. -/
theorem idle_bh_noop (inputs : Nat → Nat → RxInput) (dev : Dev)
    (fuel : Nat) (hq : dev.tx_queue = [])
    (hc : dev.hif.ctrl_ready = false) :
    (bh_work inputs dev fuel).stats_req = 0 ∧
    (bh_work inputs dev fuel).stats_ind = 0 ∧
    (bh_work inputs dev fuel).stats_cnf = 0 ∧
    (bh_work inputs dev fuel).dev.hif = dev.hif ∧
    (bh_work inputs dev fuel).dev.tx_queue = [] ∧
    (bh_work inputs dev fuel).dev.gpio_present = dev.gpio_present ∧
    (bh_work inputs dev fuel).dev.api_old = dev.api_old ∧
    (bh_work inputs dev fuel).dev.numInpChBufs = dev.numInpChBufs ∧
    (bh_work inputs dev fuel).dev.scan_in_progress = dev.scan_in_progress ∧
    (bh_work inputs dev fuel).dev.work_pending = dev.work_pending ∧
    (bh_work inputs dev fuel).dev.gpio_value =
      (if dev.gpio_present = false then dev.gpio_value
       else if dev.hif.tx_buffers_used = 0 ∧ dev.work_pending = false ∧
           dev.scan_in_progress = false then false
       else true) := by
  have hw := device_wakeup_fst dev
  by_cases hcw : dev.gpio_present = true ∧ dev.gpio_value = false
  · rw [if_pos hcw] at hw
    have hq1 : (device_wakeup dev).1.tx_queue = [] := by
      rw [hw]; exact hq
    have hc1 : (device_wakeup dev).1.hif.ctrl_ready = false := by
      rw [hw]; exact hc
    have hl := bh_work_loop_idle inputs 0 (device_wakeup dev).1 0 0 0 false
      fuel hq1 hc1
    simp only [bh_work]
    rw [hl]
    by_cases hrel : (dev.hif.tx_buffers_used = 0 ∧
        dev.work_pending = false ∧ dev.scan_in_progress = false) <;>
      simp [hw, device_release, hrel, hcw.1, hcw.2, hq]
  · rw [if_neg hcw] at hw
    have hl := bh_work_loop_idle inputs 0 (device_wakeup dev).1 0 0 0 false
      fuel (by rw [hw]; exact hq) (by rw [hw]; exact hc)
    simp only [bh_work]
    rw [hl]
    by_cases hp2 : dev.gpio_present = false
    · by_cases hrel : (dev.hif.tx_buffers_used = 0 ∧
          dev.work_pending = false ∧ dev.scan_in_progress = false) <;>
        simp [hw, device_release, hrel, hp2, hq]
    · have hpt : dev.gpio_present = true := by
        simpa using hp2
      have hgv : dev.gpio_value = true := by
        rcases Bool.eq_false_or_eq_true dev.gpio_value with h | h
        · exact h
        · exact absurd ⟨hpt, h⟩ hcw
      by_cases hrel : (dev.hif.tx_buffers_used = 0 ∧
          dev.work_pending = false ∧ dev.scan_in_progress = false) <;>
        simp [hw, device_release, hrel, hpt, hq, hgv]

/-- C9 witness: the amended statement at a concrete idle device — wake
GPIO present and asserted, nothing queued, no snapshot, no scan — where
the run releases the already-idle wake signal. -/
theorem idle_bh_noop_witness :
    (bh_work (fun _ _ => ⟨true, true, 0, ⟨0, 0, 0, 0, 0⟩, true⟩)
        ⟨⟨0, 5, 3, 0x77, false⟩, true, true, false, 4, [], false, false⟩
        2).stats_req = 0 ∧
    (bh_work (fun _ _ => ⟨true, true, 0, ⟨0, 0, 0, 0, 0⟩, true⟩)
        ⟨⟨0, 5, 3, 0x77, false⟩, true, true, false, 4, [], false, false⟩
        2).stats_ind = 0 ∧
    (bh_work (fun _ _ => ⟨true, true, 0, ⟨0, 0, 0, 0, 0⟩, true⟩)
        ⟨⟨0, 5, 3, 0x77, false⟩, true, true, false, 4, [], false, false⟩
        2).stats_cnf = 0 ∧
    (bh_work (fun _ _ => ⟨true, true, 0, ⟨0, 0, 0, 0, 0⟩, true⟩)
        ⟨⟨0, 5, 3, 0x77, false⟩, true, true, false, 4, [], false, false⟩
        2).dev.hif =
      (⟨⟨0, 5, 3, 0x77, false⟩, true, true, false, 4, [], false, false⟩ :
        Dev).hif ∧
    (bh_work (fun _ _ => ⟨true, true, 0, ⟨0, 0, 0, 0, 0⟩, true⟩)
        ⟨⟨0, 5, 3, 0x77, false⟩, true, true, false, 4, [], false, false⟩
        2).dev.tx_queue = [] ∧
    (bh_work (fun _ _ => ⟨true, true, 0, ⟨0, 0, 0, 0, 0⟩, true⟩)
        ⟨⟨0, 5, 3, 0x77, false⟩, true, true, false, 4, [], false, false⟩
        2).dev.gpio_present =
      (⟨⟨0, 5, 3, 0x77, false⟩, true, true, false, 4, [], false, false⟩ :
        Dev).gpio_present ∧
    (bh_work (fun _ _ => ⟨true, true, 0, ⟨0, 0, 0, 0, 0⟩, true⟩)
        ⟨⟨0, 5, 3, 0x77, false⟩, true, true, false, 4, [], false, false⟩
        2).dev.api_old =
      (⟨⟨0, 5, 3, 0x77, false⟩, true, true, false, 4, [], false, false⟩ :
        Dev).api_old ∧
    (bh_work (fun _ _ => ⟨true, true, 0, ⟨0, 0, 0, 0, 0⟩, true⟩)
        ⟨⟨0, 5, 3, 0x77, false⟩, true, true, false, 4, [], false, false⟩
        2).dev.numInpChBufs =
      (⟨⟨0, 5, 3, 0x77, false⟩, true, true, false, 4, [], false, false⟩ :
        Dev).numInpChBufs ∧
    (bh_work (fun _ _ => ⟨true, true, 0, ⟨0, 0, 0, 0, 0⟩, true⟩)
        ⟨⟨0, 5, 3, 0x77, false⟩, true, true, false, 4, [], false, false⟩
        2).dev.scan_in_progress =
      (⟨⟨0, 5, 3, 0x77, false⟩, true, true, false, 4, [], false, false⟩ :
        Dev).scan_in_progress ∧
    (bh_work (fun _ _ => ⟨true, true, 0, ⟨0, 0, 0, 0, 0⟩, true⟩)
        ⟨⟨0, 5, 3, 0x77, false⟩, true, true, false, 4, [], false, false⟩
        2).dev.work_pending =
      (⟨⟨0, 5, 3, 0x77, false⟩, true, true, false, 4, [], false, false⟩ :
        Dev).work_pending ∧
    (bh_work (fun _ _ => ⟨true, true, 0, ⟨0, 0, 0, 0, 0⟩, true⟩)
        ⟨⟨0, 5, 3, 0x77, false⟩, true, true, false, 4, [], false, false⟩
        2).dev.gpio_value =
      (if (⟨⟨0, 5, 3, 0x77, false⟩, true, true, false, 4, [], false, false⟩ :
          Dev).gpio_present = false then
        (⟨⟨0, 5, 3, 0x77, false⟩, true, true, false, 4, [], false, false⟩ :
          Dev).gpio_value
       else if (⟨⟨0, 5, 3, 0x77, false⟩, true, true, false, 4, [], false,
            false⟩ : Dev).hif.tx_buffers_used = 0 ∧
          (⟨⟨0, 5, 3, 0x77, false⟩, true, true, false, 4, [], false, false⟩ :
            Dev).work_pending = false ∧
          (⟨⟨0, 5, 3, 0x77, false⟩, true, true, false, 4, [], false, false⟩ :
            Dev).scan_in_progress = false then false
       else true) :=
  idle_bh_noop (fun _ _ => ⟨true, true, 0, ⟨0, 0, 0, 0, 0⟩, true⟩)
    ⟨⟨0, 5, 3, 0x77, false⟩, true, true, false, 4, [], false, false⟩ 2
    (by decide) (by decide)

end Wfx
